import Mathlib

/-!
Shallow embedding of the download scheduler of `src/src-tauri/src/downloader/mod.rs`
(types from `src/src-tauri/src/models/mod.rs`), together with proofs settling the
specification claims about it.

Modelling conventions:
* Rust `u64`/`u32`/`usize` counters become `Nat`; the `active_downloads_count`
  (`usize`, mutated with `saturating_sub`) is modelled as `Int` together with the
  explicit saturating decrement `satDec`, so that non-negativity is a real theorem
  rather than an artefact of `Nat` subtraction.
* `tokio::time::Instant` values are abstract rational time stamps; wall-clock
  reads (`Instant::now()`) become explicit `now : ℚ` parameters.
* `f64` arithmetic in `progress_percent` / `speed_bps` is modelled over `ℚ`
  (the `as u64` cast truncates, i.e. floors, a non-negative value).
* Network and filesystem effects are oracles: an HTTP response value, a chunk
  stream, and `Except`-valued results for directory/file/flush operations.
* The `HashMap<String, Arc<Mutex<DownloadTask>>>` of active downloads is an
  association list with unique keys; `remove`/`insert` are key filters.
-/

namespace Launcher

/-- Status enum `DownloadStatus` from `models/mod.rs`. -/
inductive DownloadStatus where
  | Pending
  | Downloading
  | Paused
  | Completed
  | Failed (reason : String)
  | Cancelled
deriving DecidableEq, Repr

/-- The three `LauncherError` variants the downloader module can produce
(`Network` via the `From<reqwest::Error>` impl, `FileSystem` and
`DownloadFailed` built explicitly in `downloader/mod.rs`). -/
inductive LauncherError where
  | Network (msg : String)
  | FileSystem (msg : String)
  | DownloadFailed (msg : String)
deriving DecidableEq, Repr

/-- Rendering of `e.to_string()` through the `thiserror` display strings of `models/mod.rs`. -/
def LauncherError.display : LauncherError → String
  | .Network m => "Network error: " ++ m
  | .FileSystem m => "File system error: " ++ m
  | .DownloadFailed m => "Download failed: " ++ m

/-- Struct `DownloadTask` from `downloader/mod.rs` lines 12–26. -/
structure DownloadTask where
  id : String
  name : String
  url : String
  destination : String
  total_bytes : Nat
  downloaded_bytes : Nat
  status : DownloadStatus
  created_at : ℚ
  started_at : Option ℚ
  completed_at : Option ℚ
  retry_count : Nat
  max_retries : Nat
deriving DecidableEq, Repr

/-- Constructor `DownloadTask::new` (lines 29–45): fresh pending task, `max_retries = 3`.
The `Uuid::new_v4()` value and the `Instant::now()` creation time are inputs. -/
def DownloadTask.new (uuid name url destination : String) (created : ℚ) : DownloadTask :=
  { id := "download-" ++ uuid
    name := name
    url := url
    destination := destination
    total_bytes := 0
    downloaded_bytes := 0
    status := .Pending
    created_at := created
    started_at := none
    completed_at := none
    retry_count := 0
    max_retries := 3 }

/-- Method `DownloadTask::progress_percent` (lines 47–53). -/
def DownloadTask.progress_percent (t : DownloadTask) : ℚ :=
  if t.total_bytes = 0 then 0
  else ((t.downloaded_bytes : ℚ) / (t.total_bytes : ℚ)) * 100

/-- Method `DownloadTask::elapsed_time` (lines 55–59) at wall-clock instant `now`. -/
def DownloadTask.elapsed_time (t : DownloadTask) (now : ℚ) : ℚ :=
  match t.started_at with
  | some started => now - started
  | none => 0

/-- Method `DownloadTask::speed_bps` (lines 61–68): `(downloaded as f64 / elapsed) as u64`,
the cast truncating the non-negative quotient. -/
def DownloadTask.speed_bps (t : DownloadTask) (now : ℚ) : Nat :=
  let elapsed := t.elapsed_time now
  if 0 < elapsed then ⌊(t.downloaded_bytes : ℚ) / elapsed⌋.toNat
  else 0

/-- Struct `DownloadProgress` from `models/mod.rs` lines 129–137. -/
structure DownloadProgress where
  id : String
  name : String
  downloaded_bytes : Nat
  total_bytes : Nat
  progress_percent : ℚ
  speed_bps : Nat
  status : DownloadStatus
deriving DecidableEq, Repr

/-- The `DownloadProgress` record built from a task in `get_progress` /
`get_all_downloads` (lines 308–316 etc.). -/
def snapshot (t : DownloadTask) (now : ℚ) : DownloadProgress :=
  { id := t.id
    name := t.name
    downloaded_bytes := t.downloaded_bytes
    total_bytes := t.total_bytes
    progress_percent := t.progress_percent
    speed_bps := t.speed_bps now
    status := t.status }

/-! ## Transfer model: `download_with_progress` (lines 231–301) -/

/-- One item of the HTTP body stream: either a chunk (with length and, as an
oracle, whether `file.write_all` fails on it) or a stream error. -/
inductive StreamItem where
  | chunk (len : Nat) (write_err : Option String)
  | streamError (msg : String)
deriving DecidableEq, Repr

/-- The part of an HTTP response the code reads: `status().is_success()`, the
status text (for the error message), `content_length()`, and the body stream. -/
structure HttpResponse where
  success : Bool
  status_text : String
  content_length : Option Nat
  stream : List StreamItem
deriving DecidableEq, Repr

/-- The chunk loop of `download_with_progress` (lines 266–287): accumulate
`downloaded_bytes`, failing on a stream error (`DownloadFailed`) or a write
error (`FileSystem`). -/
def processStream (destination : String) : List StreamItem → Nat → Except LauncherError Nat
  | [], acc => .ok acc
  | .streamError m :: _, _ =>
      .error (.DownloadFailed ("Download stream error: " ++ m))
  | .chunk len we :: rest, acc =>
      match we with
      | some m => .error (.FileSystem ("Failed to write to file " ++ destination ++ ": " ++ m))
      | none => processStream destination rest (acc + len)

/-- Method `DownloadManager::download_with_progress` (lines 231–301). `send` is the
result of `client.get(url).send()` (a `reqwest` error maps to
`LauncherError::Network`); `file_create` and `flush` are the filesystem oracle
results for `File::create` and `file.flush`. Returns the updated task together
with the function's `LauncherResult<()>`. -/
def download_with_progress (send : Except String HttpResponse)
    (file_create flush : Except String Unit)
    (url destination : String) (t : DownloadTask) :
    DownloadTask × Except LauncherError Unit :=
  match send with
  | .error m => (t, .error (.Network m))
  | .ok resp =>
    if resp.success = false then
      (t, .error (.DownloadFailed ("HTTP " ++ resp.status_text ++ ": " ++ url)))
    else
      let total := resp.content_length.getD 0
      let t := { t with total_bytes := total }
      match file_create with
      | .error m =>
          (t, .error (.FileSystem ("Failed to create file " ++ destination ++ ": " ++ m)))
      | .ok _ =>
        match processStream destination resp.stream 0 with
        | .error e => (t, .error e)
        | .ok downloaded =>
          let t := { t with downloaded_bytes := downloaded }
          match flush with
          | .error m =>
              (t, .error (.FileSystem ("Failed to flush file " ++ destination ++ ": " ++ m)))
          | .ok _ => (t, .ok ())

/-! ## Retry loop: `execute_download` (lines 180–228) -/

/-- Observable outcome of the retry loop of `execute_download`: the status and
retry count it writes into the task, the backoff sleeps it performs (in
seconds), the number of `download_with_progress` attempts, and the loop's
`LauncherResult<()>` value. -/
structure RetryResult where
  status : DownloadStatus
  retry_count : Nat
  sleeps : List Nat
  attempts_used : Nat
  result : Except LauncherError Unit
deriving Repr

/-- The `loop` of `execute_download` (lines 201–227). `attempt i` is the result
of the `(i+1)`-th `download_with_progress` call (i.e. the call made when the
local `retry_count` equals `i`); `rc` is the current value of `retry_count`. -/
def retryLoop (max_retries : Nat) (attempt : Nat → Except LauncherError Unit)
    (rc : Nat) : RetryResult :=
  match attempt rc with
  | .ok _ =>
      { status := .Completed, retry_count := rc, sleeps := [],
        attempts_used := 1, result := .ok () }
  | .error e =>
      let rc' := rc + 1
      if rc' ≥ max_retries then
        { status := .Failed e.display, retry_count := rc', sleeps := [],
          attempts_used := 1, result := .error e }
      else
        let r := retryLoop max_retries attempt rc'
        { r with sleeps := 2 ^ (rc' - 1) :: r.sleeps,
                 attempts_used := r.attempts_used + 1 }
termination_by max_retries - rc
decreasing_by omega

/-- Observable outcome of one `execute_download` run. -/
structure ExecResult where
  task : DownloadTask
  result : Except LauncherError Unit
  sleeps : List Nat
  attempts_used : Nat
deriving Repr

/-- Method `DownloadManager::execute_download` (lines 180–228). The task is first
marked `Downloading` with `started_at = now` (lines 186–191); then
`create_dir_all` runs (`dir_err = some m` models its failure, `m` being the
formatted `FileSystem` message) and a failure propagates with `?` — before the
retry loop and without touching the task's status; otherwise the retry loop
runs with the task's `max_retries`. -/
def execute_download (dir_err : Option String)
    (attempt : Nat → Except LauncherError Unit) (now : ℚ)
    (t0 : DownloadTask) : ExecResult :=
  let t := { t0 with status := DownloadStatus.Downloading, started_at := some now }
  match dir_err with
  | some m => { task := t, result := .error (.FileSystem m), sleeps := [], attempts_used := 0 }
  | none =>
    let r := retryLoop t.max_retries attempt 0
    let t1 := { t with status := r.status, retry_count := r.retry_count }
    let t2 := if r.result.isOk then { t1 with completed_at := some now } else t1
    { task := t2, result := r.result, sleeps := r.sleeps, attempts_used := r.attempts_used }

/-! ## Manager state and operations (lines 72–499)

The manager's shared mutable state — the active-download map, the queue and
`active_downloads_count` — is modelled explicitly. Because one invocation of
`try_start_next_download` runs each admitted task's transfer inline and other
manager operations (from other async invocations) can interleave between its
lock acquisitions at task granularity, the scheduler is decomposed into an
`promote` step (lines 122–150: capacity check, pop of queue index 0, insertion
into the active map, count increment) and a `finish` step (lines 156–164:
removal from the active map and saturating count decrement once the inline
`execute_download` returns). The `running` field records admitted tasks whose
executor has not finished yet (each admission produces exactly one later
finish); `graveyard` records task cells that `cancel_download` detached from
the active map after mutating their status (the executor's `Arc` still holds
them); `fs_removed` logs every `tokio::fs::remove_file` call the manager makes. -/

/-- Operation `usize::saturating_sub(1)` on `active_downloads_count`, on an `Int` model. -/
def satDec (c : Int) : Int := max (c - 1) 0

/-- Operation `HashMap::remove(id)` on the active-download map (all entries carry distinct
keys, so filtering the key out is the removal). -/
def eraseKey (id : String) (m : List (String × DownloadTask)) :
    List (String × DownloadTask) :=
  m.filter (fun p => p.1 ≠ id)

/-- Operation `HashMap::get(id)` on the active-download map. -/
def lookupActive (id : String) (m : List (String × DownloadTask)) :
    Option DownloadTask :=
  (m.find? (fun p => p.1 = id)).map (fun p => p.2)

/-- The `DownloadManager` state (lines 72–78), with the bookkeeping ghosts
described above. -/
@[ext]
structure MState where
  active : List (String × DownloadTask)
  queue : List DownloadTask
  max_concurrent : Nat
  active_downloads_count : Int
  running : List String
  graveyard : List DownloadTask
  fs_removed : List String
deriving DecidableEq, Repr

/-- Constructor `DownloadManager::new` (lines 81–90) followed by `set_max_concurrent max`
(lines 93–95); the code's default is `max = 3`. -/
def DownloadManager.new (max : Nat) : MState :=
  { active := []
    queue := []
    max_concurrent := max
    active_downloads_count := 0
    running := []
    graveyard := []
    fs_removed := [] }

/-- Method `DownloadManager::get_progress` (lines 304–334): search the active map,
then the queue. -/
def getProgress (s : MState) (id : String) (now : ℚ) : Option DownloadProgress :=
  match lookupActive id s.active with
  | some t => some (snapshot t now)
  | none => (s.queue.find? (fun t => t.id = id)).map (fun t => snapshot t now)

/-- The enqueue half of `start_download` (lines 108–111): push the new task to
the back of the queue. -/
def enqueueStep (t : DownloadTask) (s : MState) : MState :=
  { s with queue := s.queue ++ [t] }

/-- One admission iteration of `try_start_next_download` (lines 122–150):
if `active_count < max_concurrent` and the queue is non-empty, remove the
task at queue index 0, insert it into the active map, increment the count and
record its executor as running; otherwise no state change. -/
def promoteStep (s : MState) : MState :=
  if s.active_downloads_count ≥ (s.max_concurrent : Int) then s
  else
    match s.queue with
    | [] => s
    | t :: rest =>
      { s with queue := rest
               active := (t.id, t) :: eraseKey t.id s.active
               active_downloads_count := s.active_downloads_count + 1
               running := t.id :: s.running }

/-- The completion bookkeeping of `try_start_next_download` (lines 156–164),
run once when an admitted task's inline `execute_download` returns: remove the
id from the active map and saturating-decrement the count. Guarded by
`running` since each admission yields exactly one such completion. -/
def finishStep (id : String) (s : MState) : MState :=
  if id ∈ s.running then
    { s with running := s.running.erase id
             active := eraseKey id s.active
             active_downloads_count := satDec s.active_downloads_count }
  else s

/-- Method `DownloadManager::cancel_download` (lines 337–367): remove from the active
map (if present: mark the detached cell `Cancelled` and saturating-decrement
the count), remove from the queue, then — only after both removals — consult
`get_progress(id)` and delete `progress.name` when a snapshot with a
non-`Completed` status comes back. -/
def cancelStep (id : String) (now : ℚ) (s : MState) : MState :=
  let s1 :=
    match lookupActive id s.active with
    | some t =>
      { s with active := eraseKey id s.active
               active_downloads_count := satDec s.active_downloads_count
               graveyard := s.graveyard ++ [{ t with status := DownloadStatus.Cancelled }] }
    | none => s
  let s2 := { s1 with queue := s1.queue.filter (fun t => t.id ≠ id) }
  match getProgress s2 id now with
  | some p =>
      if p.status ≠ DownloadStatus.Completed then
        { s2 with fs_removed := s2.fs_removed ++ [p.name] }
      else s2
  | none => s2

/-- Method `DownloadManager::pause_download` (lines 370–390): if active, remove from
the active map, reset the cell's status to `Pending`, push a clone to the back
of the queue, and saturating-decrement the count. (The executor keeps running:
`running` is untouched.) -/
def pauseStep (id : String) (s : MState) : MState :=
  match lookupActive id s.active with
  | some t =>
    { s with active := eraseKey id s.active
             queue := s.queue ++ [{ t with status := DownloadStatus.Pending }]
             active_downloads_count := satDec s.active_downloads_count }
  | none => s

/-- Method `DownloadManager::resume_download` (lines 393–408), queue part: move the
first queued task with this id to the back of the queue with status `Pending`.
(The subsequent `try_start_next_download` call is a separate `promote` step.) -/
def resumeStep (id : String) (s : MState) : MState :=
  match s.queue.find? (fun t => t.id = id) with
  | some t =>
    { s with queue := (s.queue.eraseP (fun t => t.id = id))
                        ++ [{ t with status := DownloadStatus.Pending }] }
  | none => s

/-- Method `DownloadManager::remove_download` (lines 411–423): remove the id from the
active map and the queue; nothing else. -/
def removeStep (id : String) (s : MState) : MState :=
  { s with active := eraseKey id s.active
           queue := s.queue.filter (fun t => t.id ≠ id) }

/-- One manager operation, as observable at the lock-acquisition granularity
described above. -/
inductive Label where
  | enqueue (t : DownloadTask)
  | promote
  | finish (id : String)
  | cancel (id : String) (now : ℚ)
  | pause (id : String)
  | resume (id : String)
  | remove (id : String)

/-- Interpretation of one operation. -/
def step : Label → MState → MState
  | .enqueue t, s => enqueueStep t s
  | .promote, s => promoteStep s
  | .finish id, s => finishStep id s
  | .cancel id now, s => cancelStep id now s
  | .pause id, s => pauseStep id s
  | .resume id, s => resumeStep id s
  | .remove id, s => removeStep id s

/-- Run a sequence of operations from a state. -/
def run : List Label → MState → MState
  | [], s => s
  | l :: ls, s => run ls (step l s)

/-! ## One invocation of `try_start_next_download`, inline (lines 120–177)

A single invocation of `try_start_next_download` executes each admitted task's
download inline and loops until the queue is empty or capacity is reached.
This composes the `promote`/`finish` steps above around `execute_download`.
The per-task effect oracles are keyed by task id. -/

/-- Effect oracles for the inline executions: `dir_err id` is the formatted
`create_dir_all` failure for that task (`none` = success), `attempt id i` the
result of its `(i+1)`-th `download_with_progress` call, `now` the wall clock. -/
structure ExecEnv where
  dir_err : String → Option String
  attempt : String → Nat → Except LauncherError Unit
  now : ℚ

set_option linter.unusedVariables false in
/-- Method `DownloadManager::try_start_next_download` (lines 120–177): the admission
loop. Both `break` sites yield `Ok(())`; an `Err` from the inline
`execute_download` is only logged (lines 171–173), never returned. -/
def try_start_next_download (env : ExecEnv) (s : MState) :
    MState × Except LauncherError Unit :=
  if s.active_downloads_count ≥ (s.max_concurrent : Int) then (s, .ok ())
  else
    match hq : s.queue with
    | [] => (s, .ok ())
    | t :: rest =>
      let s1 : MState :=
        { s with queue := rest
                 active := (t.id, t) :: eraseKey t.id s.active
                 active_downloads_count := s.active_downloads_count + 1 }
      let _r := execute_download (env.dir_err t.id) (env.attempt t.id) env.now t
      let s2 : MState :=
        { s1 with active := eraseKey t.id s1.active
                  active_downloads_count := satDec s1.active_downloads_count }
      try_start_next_download env s2
termination_by s.queue.length
decreasing_by simp [s2, s1, hq]

/-- Method `DownloadManager::start_download` (lines 98–117): build a fresh task,
push it onto the queue, run the admission loop, propagate its result with `?`,
and return the new task's id. -/
def start_download (env : ExecEnv) (uuid name url destination : String)
    (created : ℚ) (s : MState) : MState × Except LauncherError String :=
  let task := DownloadTask.new uuid name url destination created
  let task_id := task.id
  let s1 := { s with queue := s.queue ++ [task] }
  match try_start_next_download env s1 with
  | (s2, .ok _) => (s2, .ok task_id)
  | (s2, .error e) => (s2, .error e)

/-! ## Concrete instances used as witnesses and counterexamples -/

/-- Two freshly-enqueued tasks (A before B) for the FIFO witness. -/
def wTaskA : DownloadTask := DownloadTask.new "aaaa" "A" "http://host/a" "tmp/a.bin" 0

def wTaskB : DownloadTask := DownloadTask.new "bbbb" "B" "http://host/b" "tmp/b.bin" 0

/-- A manager with A and B queued in that order and no active download. -/
def wStateAB : MState := { DownloadManager.new 3 with queue := [wTaskA, wTaskB] }

/-- An active, partially-downloaded task (for the cancel analysis): 400 of
1000 bytes written to `tmp/modpack.zip`. -/
def cTask : DownloadTask :=
  { DownloadTask.new "cccc" "modpack.zip" "http://host/m.zip" "tmp/modpack.zip" 0 with
      status := DownloadStatus.Downloading
      started_at := some 0
      total_bytes := 1000
      downloaded_bytes := 400 }

/-- A manager in which `cTask` is the single active download. -/
def cState : MState :=
  { DownloadManager.new 3 with
      active := [(cTask.id, cTask)]
      active_downloads_count := 1
      running := [cTask.id] }

/-- A task as `start_download` builds it (`max_retries = 3`). -/
def wTask2 : DownloadTask := DownloadTask.new "dddd" "jre.zip" "http://host/j.zip" "tmp/j.zip" 0

/-- Attempts: fail twice (transport error, then HTTP 500), succeed third. -/
def wAtt2 : Nat → Except LauncherError Unit := fun i =>
  if i = 0 then .error (.Network "connection timed out")
  else if i = 1 then .error (.DownloadFailed "HTTP 500 Internal Server Error: http://host/j.zip")
  else .ok ()

/-- Attempts that always fail. -/
def wAttF : Nat → Except LauncherError Unit := fun _ =>
  .error (.DownloadFailed "HTTP 503 Service Unavailable: http://host/j.zip")

/-- A first attempt failing with a filesystem (file-creation) error, every
later attempt succeeding. -/
def wAttFs : Nat → Except LauncherError Unit := fun i =>
  if i = 0 then .error (.FileSystem "Failed to create file tmp/j.zip: permission denied")
  else .ok ()

/-- A successful HTTP response whose body is one 100-byte chunk. -/
def wRespOk : HttpResponse :=
  { success := true, status_text := "200 OK", content_length := some 100,
    stream := [.chunk 100 none] }

/-- A response whose body (200 bytes) exceeds its `content-length` (100). -/
def wRespLying : HttpResponse :=
  { success := true, status_text := "200 OK", content_length := some 100,
    stream := [.chunk 200 none] }

/-- The task produced by a transfer from `wRespLying`: 200 of 100 bytes. -/
def wOverTask : DownloadTask :=
  (download_with_progress (.ok wRespLying) (.ok ()) (.ok ())
    "http://host/j.zip" "tmp/j.zip" wTask2).1

/-- A well-behaved in-progress task for the numeric witness: 50 of 200 bytes,
started at time 0. -/
def wNumTask : DownloadTask :=
  { DownloadTask.new "eeee" "n" "http://host/n" "tmp/n.bin" 0 with
      status := DownloadStatus.Downloading
      started_at := some 0
      total_bytes := 200
      downloaded_bytes := 50 }

/-! ## Helper lemmas -/

theorem satDec_nonneg (c : Int) : 0 ≤ satDec c := le_max_right _ _

theorem satDec_le (c b : Int) (hc : c ≤ b) (hb : 0 ≤ b) : satDec c ≤ b :=
  max_le (by omega) hb

/-- The count-range invariant: the number of active downloads is between 0 and
the concurrency budget. -/
def countInv (s : MState) : Prop :=
  0 ≤ s.active_downloads_count ∧ s.active_downloads_count ≤ (s.max_concurrent : Int)

theorem countInv_step (l : Label) (s : MState) (h : countInv s) : countInv (step l s) := by
  obtain ⟨h0, h1⟩ := h
  have hmc : (0 : Int) ≤ (s.max_concurrent : Int) := Int.natCast_nonneg _
  cases l <;>
    simp only [step, enqueueStep, promoteStep, finishStep, cancelStep, getProgress,
      pauseStep, resumeStep, removeStep] <;>
    (repeat' split) <;>
    (refine ⟨?_, ?_⟩ <;> dsimp only <;>
      first
      | exact h0
      | exact h1
      | omega
      | exact satDec_nonneg _
      | exact satDec_le _ _ h1 hmc)

theorem countInv_run (ls : List Label) (s : MState) (h : countInv s) :
    countInv (run ls s) := by
  induction ls generalizing s with
  | nil => exact h
  | cons l ls ih => exact ih (step l s) (countInv_step l s h)

theorem countInv_new (max : Nat) : countInv (DownloadManager.new max) :=
  ⟨le_refl 0, Int.natCast_nonneg _⟩

theorem lookupActive_cons_self (id : String) (t : DownloadTask)
    (m : List (String × DownloadTask)) :
    lookupActive id ((id, t) :: m) = some t := by
  simp [lookupActive, List.find?]

theorem lookupActive_cons (id : String) (p : String × DownloadTask)
    (m : List (String × DownloadTask)) :
    lookupActive id (p :: m) = if p.1 = id then some p.2 else lookupActive id m := by
  by_cases h : p.1 = id <;> simp [lookupActive, List.find?_cons, h]

theorem eraseKey_cons (id' : String) (p : String × DownloadTask)
    (m : List (String × DownloadTask)) :
    eraseKey id' (p :: m) = if p.1 = id' then eraseKey id' m else p :: eraseKey id' m := by
  by_cases h : p.1 = id' <;> simp [eraseKey, List.filter_cons, h]

theorem lookupActive_eraseKey_self (id : String) (m : List (String × DownloadTask)) :
    lookupActive id (eraseKey id m) = none := by
  induction m with
  | nil => rfl
  | cons p m ih =>
    rw [eraseKey_cons]
    by_cases hp : p.1 = id
    · rw [if_pos hp]; exact ih
    · rw [if_neg hp, lookupActive_cons, if_neg hp]; exact ih

theorem lookupActive_eraseKey_ne (id id' : String) (m : List (String × DownloadTask))
    (h : id ≠ id') : lookupActive id (eraseKey id' m) = lookupActive id m := by
  induction m with
  | nil => rfl
  | cons p m ih =>
    rw [eraseKey_cons, lookupActive_cons]
    by_cases hp : p.1 = id'
    · have hpid : ¬ p.1 = id := fun hh => h (hh ▸ hp)
      rw [if_pos hp, if_neg hpid]
      exact ih
    · rw [if_neg hp, lookupActive_cons]
      by_cases hq : p.1 = id
      · rw [if_pos hq, if_pos hq]
      · rw [if_neg hq, if_neg hq]
        exact ih

theorem eraseKey_idem (id : String) (m : List (String × DownloadTask)) :
    eraseKey id (eraseKey id m) = eraseKey id m := by
  induction m with
  | nil => rfl
  | cons p m ih =>
    rw [eraseKey_cons]
    by_cases hp : p.1 = id
    · rw [if_pos hp]; exact ih
    · rw [if_neg hp, eraseKey_cons, if_neg hp, ih]

theorem filter_ne_idem (id : String) (q : List DownloadTask) :
    (q.filter (fun t => t.id ≠ id)).filter (fun t => t.id ≠ id)
      = q.filter (fun t => t.id ≠ id) := by
  induction q with
  | nil => rfl
  | cons t q ih =>
    rw [List.filter_cons]
    by_cases ht : t.id = id
    · rw [if_neg (by simp [ht])]
      exact ih
    · rw [if_pos (by simp [ht]), List.filter_cons, if_pos (by simp [ht]), ih]

theorem find?_filter_ne (id : String) (q : List DownloadTask) :
    (q.filter (fun t => t.id ≠ id)).find? (fun t => t.id = id) = none := by
  induction q with
  | nil => rfl
  | cons t q ih =>
    rw [List.filter_cons]
    by_cases ht : t.id = id
    · simp only [ht, ne_eq, not_true_eq_false, decide_False, Bool.false_eq_true, if_false]
      exact ih
    · rw [if_pos (by simp [ht]), List.find?_cons_of_neg _ (by simp [ht])]
      exact ih

/-- What `cancel_download` actually does, for any state: remove from the
active map (with the status mutation and count decrement when the id was
active), remove from the queue — and nothing else, because the
`get_progress(id)` consulted afterwards always returns `None`. -/
theorem cancelStep_spec (id : String) (now : ℚ) (s : MState) :
    (∀ t, lookupActive id s.active = some t →
        cancelStep id now s =
          { s with active := eraseKey id s.active
                   queue := s.queue.filter (fun u => u.id ≠ id)
                   active_downloads_count := satDec s.active_downloads_count
                   graveyard := s.graveyard ++ [{ t with status := DownloadStatus.Cancelled }] }) ∧
    (lookupActive id s.active = none →
        cancelStep id now s = { s with queue := s.queue.filter (fun u => u.id ≠ id) }) := by
  constructor
  · intro t ht
    simp only [cancelStep, ht]
    have h1 : lookupActive id (eraseKey id s.active) = none :=
      lookupActive_eraseKey_self id s.active
    have h2 : (s.queue.filter (fun u => u.id ≠ id)).find? (fun u => u.id = id) = none :=
      find?_filter_ne id s.queue
    have hfalse : s.queue.find? (fun _ => false) = none :=
      List.find?_eq_none.mpr (fun a _ => by simp)
    simp [getProgress, h1, h2, hfalse]
  · intro hn
    simp only [cancelStep, hn]
    have h2 : (s.queue.filter (fun u => u.id ≠ id)).find? (fun u => u.id = id) = none :=
      find?_filter_ne id s.queue
    have hfalse : s.queue.find? (fun _ => false) = none :=
      List.find?_eq_none.mpr (fun a _ => by simp)
    simp [getProgress, hn, h2, hfalse]

/-- Fact: `cancel_download` never deletes any file, whatever the state: the
partial-file branch is dead code. -/
theorem cancelStep_no_fs (id : String) (now : ℚ) (s : MState) :
    (cancelStep id now s).fs_removed = s.fs_removed := by
  rcases hl : lookupActive id s.active with _ | t
  · rw [(cancelStep_spec id now s).2 hl]
  · rw [(cancelStep_spec id now s).1 t hl]

/-- The admission loop never returns an error: both `break` sites yield
`Ok(())` and inline download failures are only logged. -/
theorem try_start_result_ok (env : ExecEnv) (s : MState) :
    (try_start_next_download env s).2 = .ok () := by
  generalize hn : s.queue.length = n
  induction n using Nat.strong_induction_on generalizing s with
  | _ n ih =>
    rw [try_start_next_download]
    split
    · rfl
    · split
      · rfl
      · rename_i hcap t rest hq
        have hlt : rest.length < n := by rw [← hn, hq]; simp
        exact ih rest.length hlt _ rfl

/-- Sanity check tying the two scheduler views together: when a slot is free
and the queue is non-empty, an `promote` step followed by the matching `finish`
step produces exactly the state the inline loop of `try_start_next_download`
recurses on after one iteration. -/
theorem promote_finish_matches_inline_iteration (s : MState) (t : DownloadTask)
    (rest : List DownloadTask) (hq : s.queue = t :: rest)
    (hcap : s.active_downloads_count < (s.max_concurrent : Int)) :
    step (Label.finish t.id) (step Label.promote s) =
      { s with queue := rest
               active := eraseKey t.id ((t.id, t) :: eraseKey t.id s.active)
               active_downloads_count := satDec (s.active_downloads_count + 1) } := by
  have hnot : ¬ s.active_downloads_count ≥ (s.max_concurrent : Int) := not_le.mpr hcap
  simp only [step, promoteStep, finishStep, hq, if_neg hnot]
  rw [if_pos (by simp)]
  apply MState.ext
  all_goals dsimp only
  all_goals first
    | rfl
    | exact List.erase_cons_head t.id s.running

/-! ## Claims -/

/-- Claim C1: for every reachable state of the manager — any operation sequence
of enqueues (`start_download`), scheduler admission steps, completions,
`cancel_download`, `pause_download`, `resume_download`, `remove_download` —
the active-downloads count never exceeds `max_concurrent`; the admission step
only admits when `active_count < max_concurrent`. -/
theorem c1_active_count_never_exceeds_max (max : Nat) (ls : List Label) :
    (run ls (DownloadManager.new max)).active_downloads_count
      ≤ ((run ls (DownloadManager.new max)).max_concurrent : Int) :=
  (countInv_run ls (DownloadManager.new max) (countInv_new max)).2

/-- Claim C10: the active-downloads count never becomes negative: every
decrement (`finish`, `cancel`, `pause`) is the saturating `satDec`, so under
every operation sequence — including ones where a task's completion fires
after the task was already cancelled or paused, decrementing twice for one
admission — the count stays ≥ 0. -/
theorem c10_active_count_never_negative (max : Nat) (ls : List Label) :
    0 ≤ (run ls (DownloadManager.new max)).active_downloads_count :=
  (countInv_run ls (DownloadManager.new max) (countInv_new max)).1

/-- Claim C4: admission is strict FIFO: when a slot is free the scheduler
removes exactly the task at queue index 0 and moves it into the active set;
any task behind it (in particular one enqueued later) is not admitted by this
step. -/
theorem c4_fifo_admits_queue_front (s : MState) (t : DownloadTask)
    (rest : List DownloadTask) (hq : s.queue = t :: rest)
    (hcap : s.active_downloads_count < (s.max_concurrent : Int)) :
    (step Label.promote s).queue = rest ∧
    lookupActive t.id (step Label.promote s).active = some t ∧
    ∀ b, b ∈ rest → b.id ≠ t.id →
      lookupActive b.id (step Label.promote s).active = lookupActive b.id s.active := by
  have hnot : ¬ s.active_downloads_count ≥ (s.max_concurrent : Int) := not_le.mpr hcap
  simp only [step, promoteStep, hq, if_neg hnot]
  refine ⟨by trivial, ?_, ?_⟩
  · exact lookupActive_cons_self t.id t (eraseKey t.id s.active)
  · intro b hb hbid
    rw [lookupActive_cons, if_neg (fun hh => hbid hh.symm)]
    exact lookupActive_eraseKey_ne b.id t.id s.active hbid

/-- Witness for C4: with tasks A then B queued and a free slot, the admission
step admits A (queue head) and leaves B queued and not active. -/
theorem c4_fifo_admits_queue_front_witness :
    wStateAB.queue = [wTaskA, wTaskB] ∧
    wStateAB.active_downloads_count < (wStateAB.max_concurrent : Int) ∧
    wTaskB ∈ [wTaskB] ∧ wTaskB.id ≠ wTaskA.id ∧
    (step Label.promote wStateAB).queue = [wTaskB] ∧
    lookupActive wTaskA.id (step Label.promote wStateAB).active = some wTaskA ∧
    lookupActive wTaskB.id (step Label.promote wStateAB).active
      = lookupActive wTaskB.id wStateAB.active := by
  have h := c4_fifo_admits_queue_front wStateAB wTaskA [wTaskB] rfl (by decide)
  exact ⟨rfl, by decide, by simp, by decide, h.1, h.2.1,
    h.2.2 wTaskB (by simp) (by decide)⟩

/-- Claim C7: `remove_download` purges bookkeeping only: it filters the id out
of the active map and the queue, leaves every other task's entry (hence all
its fields) unchanged, performs no filesystem operation, and changes nothing
else — for every state and id, known or not. -/
theorem c7_remove_download_bookkeeping_only (s : MState) (id : String) :
    (removeStep id s).active = eraseKey id s.active ∧
    (removeStep id s).queue = s.queue.filter (fun t => t.id ≠ id) ∧
    (∀ k, k ≠ id → lookupActive k (removeStep id s).active = lookupActive k s.active) ∧
    (removeStep id s).fs_removed = s.fs_removed ∧
    (removeStep id s).active_downloads_count = s.active_downloads_count ∧
    (removeStep id s).max_concurrent = s.max_concurrent ∧
    (removeStep id s).running = s.running ∧
    (removeStep id s).graveyard = s.graveyard := by
  refine ⟨rfl, rfl, ?_, rfl, rfl, rfl, rfl, rfl⟩
  intro k hk
  exact lookupActive_eraseKey_ne k id s.active hk

/-- Witness for C7 at a concrete state: removing A keeps B's entries intact
and touches no file. -/
theorem c7_remove_download_bookkeeping_only_witness :
    wTaskB.id ≠ wTaskA.id ∧
    (removeStep wTaskA.id wStateAB).queue = [wTaskB] ∧
    lookupActive wTaskB.id (removeStep wTaskA.id wStateAB).active
      = lookupActive wTaskB.id wStateAB.active ∧
    (removeStep wTaskA.id wStateAB).fs_removed = wStateAB.fs_removed := by
  have h := c7_remove_download_bookkeeping_only wStateAB wTaskA.id
  refine ⟨by decide, ?_, h.2.2.1 wTaskB.id (by decide), h.2.2.2.1⟩
  rw [h.2.1]
  decide

/-- Claim C8: `remove_download` and `cancel_download` are idempotent: a second
call with the same id leaves the whole manager state — active map, queue,
count, and the filesystem log — exactly as after the first call, for every
starting state. -/
theorem c8_remove_cancel_idempotent (s : MState) (id : String) (n1 n2 : ℚ) :
    removeStep id (removeStep id s) = removeStep id s ∧
    cancelStep id n2 (cancelStep id n1 s) = cancelStep id n1 s := by
  constructor
  · apply MState.ext <;> dsimp only [removeStep] <;>
      first
      | rfl
      | exact eraseKey_idem id s.active
      | exact filter_ne_idem id s.queue
  · rcases hl : lookupActive id s.active with _ | t
    · have h1 := (cancelStep_spec id n1 s).2 hl
      have hl' : lookupActive id (cancelStep id n1 s).active = none := by
        rw [h1]; exact hl
      rw [(cancelStep_spec id n2 (cancelStep id n1 s)).2 hl', h1]
      apply MState.ext
      all_goals dsimp only
      all_goals first
        | rfl
        | exact filter_ne_idem id s.queue
    · have h1 := (cancelStep_spec id n1 s).1 t hl
      have hl' : lookupActive id (cancelStep id n1 s).active = none := by
        rw [h1]; exact lookupActive_eraseKey_self id s.active
      rw [(cancelStep_spec id n2 (cancelStep id n1 s)).2 hl', h1]
      apply MState.ext
      all_goals dsimp only
      all_goals first
        | rfl
        | exact filter_ne_idem id s.queue

/-- Claim C3 (the code contradicts the claim's file-deletion part): cancelling
the active, partially-downloaded task `cTask` does remove it from the active
set, mark the detached cell `Cancelled` and free its slot — but no file is
ever deleted (`fs_removed` stays empty): `cancel_download` consults
`get_progress(id)` only after removing the id from both collections, so the
deletion branch never runs (and, were it reached, it would pass the display
name, not the destination path, to `remove_file`). See `cancelStep_no_fs`. -/
theorem c3_cancel_never_deletes_partial_file :
    lookupActive cTask.id (step (Label.cancel cTask.id 5) cState).active = none ∧
    (step (Label.cancel cTask.id 5) cState).graveyard
      = [{ cTask with status := DownloadStatus.Cancelled }] ∧
    (step (Label.cancel cTask.id 5) cState).active_downloads_count = 0 ∧
    cTask.destination = "tmp/modpack.zip" ∧
    cTask.downloaded_bytes = 400 ∧
    (step (Label.cancel cTask.id 5) cState).fs_removed = [] := by
  decide

/-- Claim C2: retry semantics of the Transfer Executor with `max_retries = 3`:
each failed attempt increments `retry_count` and, before the next attempt,
sleeps `2^(retry_count-1)` seconds (so the k-th backoff sleep, 0-indexed, is
`2^k`: 1s, then 2s); a run whose first two attempts fail and whose third
succeeds ends `Completed` with `retry_count = 2` after sleeping 1s and 2s;
a run whose attempts always fail ends `Failed` with the last attempt's error
after exactly 3 attempts. -/
theorem c2_retry_backoff (t : DownloadTask) (now : ℚ)
    (att2 attF : Nat → Except LauncherError Unit)
    (e0 e1 f0 f1 f2 : LauncherError)
    (hmax : t.max_retries = 3)
    (h0 : att2 0 = .error e0) (h1 : att2 1 = .error e1) (h2 : att2 2 = .ok ())
    (g0 : attF 0 = .error f0) (g1 : attF 1 = .error f1) (g2 : attF 2 = .error f2) :
    (execute_download none att2 now t).task.status = DownloadStatus.Completed ∧
    (execute_download none att2 now t).task.retry_count = 2 ∧
    (execute_download none att2 now t).sleeps = [1, 2] ∧
    (execute_download none attF now t).task.status = DownloadStatus.Failed f2.display ∧
    (execute_download none attF now t).task.retry_count = 3 ∧
    (execute_download none attF now t).attempts_used = 3 ∧
    (execute_download none attF now t).sleeps = [1, 2] ∧
    (∀ att : Nat → Except LauncherError Unit,
      (execute_download none att now t).sleeps
        = (List.range (execute_download none att now t).sleeps.length).map
            (fun i => 2 ^ i)) := by
  refine ⟨?_, ?_, ?_, ?_, ?_, ?_, ?_, ?_⟩
  · simp [execute_download, retryLoop, Except.isOk, Except.toBool, hmax, h0, h1, h2]
  · simp [execute_download, retryLoop, Except.isOk, Except.toBool, hmax, h0, h1, h2]
  · simp [execute_download, retryLoop, Except.isOk, Except.toBool, hmax, h0, h1, h2]
  · simp [execute_download, retryLoop, Except.isOk, Except.toBool, hmax, g0, g1, g2]
  · simp [execute_download, retryLoop, Except.isOk, Except.toBool, hmax, g0, g1, g2]
  · simp [execute_download, retryLoop, Except.isOk, Except.toBool, hmax, g0, g1, g2]
  · simp [execute_download, retryLoop, Except.isOk, Except.toBool, hmax, g0, g1, g2]
  · intro att
    rcases k0 : att 0 with u0 | x0 <;> rcases k1 : att 1 with u1 | x1 <;>
      rcases k2 : att 2 with u2 | x2 <;>
      simp [execute_download, retryLoop, hmax, k0, k1, k2, List.range_succ]

/-- Witness for C2 at concrete attempt sequences. -/
theorem c2_retry_backoff_witness :
    wTask2.max_retries = 3 ∧
    wAtt2 0 = .error (.Network "connection timed out") ∧
    wAtt2 2 = .ok () ∧
    (execute_download none wAtt2 0 wTask2).task.status = DownloadStatus.Completed ∧
    (execute_download none wAtt2 0 wTask2).task.retry_count = 2 ∧
    (execute_download none wAtt2 0 wTask2).sleeps = [1, 2] ∧
    (execute_download none wAttF 0 wTask2).task.status
      = DownloadStatus.Failed (LauncherError.DownloadFailed
          "HTTP 503 Service Unavailable: http://host/j.zip").display ∧
    (execute_download none wAttF 0 wTask2).attempts_used = 3 := by
  have h := c2_retry_backoff wTask2 0 wAtt2 wAttF
    (.Network "connection timed out")
    (.DownloadFailed "HTTP 500 Internal Server Error: http://host/j.zip")
    (.DownloadFailed "HTTP 503 Service Unavailable: http://host/j.zip")
    (.DownloadFailed "HTTP 503 Service Unavailable: http://host/j.zip")
    (.DownloadFailed "HTTP 503 Service Unavailable: http://host/j.zip")
    rfl rfl rfl rfl rfl rfl rfl
  exact ⟨rfl, rfl, rfl, h.1, h.2.1, h.2.2.1, h.2.2.2.1, h.2.2.2.2.2.1⟩

/-- Claim C5 counterexample: a `FileSystem` error — the very value
`download_with_progress` returns when `File::create` on the destination fails
— is retried like any other error, and the download then ends `Completed`:
it is neither fatal nor surfaced as `Failed`, contradicting the claim. -/
theorem c5_filesystem_error_is_retried :
    (download_with_progress (.ok wRespOk) (.error "permission denied") (.ok ())
        "http://host/j.zip" "tmp/j.zip" wTask2).2
      = .error (.FileSystem "Failed to create file tmp/j.zip: permission denied") ∧
    wAttFs 0 = .error (.FileSystem "Failed to create file tmp/j.zip: permission denied") ∧
    (execute_download none wAttFs 0 wTask2).task.status = DownloadStatus.Completed ∧
    (execute_download none wAttFs 0 wTask2).task.retry_count = 1 ∧
    (execute_download none wAttFs 0 wTask2).sleeps = [1] := by
  refine ⟨rfl, rfl, ?_, ?_, ?_⟩ <;>
    simp [execute_download, retryLoop, Except.isOk, Except.toBool, wAttFs, wTask2, DownloadTask.new]

/-- Claim C5 amended: only the destination-directory creation failure (before
the retry loop) is fatal and unretried — and it leaves the task's status
`Downloading` (the error is only logged by the admission loop), not `Failed`;
every error produced inside a transfer attempt — `FileSystem` (file create,
chunk write, flush) as well as `Network` and HTTP/stream (`DownloadFailed`)
errors — is retried uniformly up to `max_retries`, surfacing as `Failed` only
on exhaustion. -/
theorem c5_amended_error_policy (m : String) (e : LauncherError)
    (att : Nat → Except LauncherError Unit) (t : DownloadTask) (now : ℚ)
    (hmax : t.max_retries = 3)
    (h0 : att 0 = .error e) (h1 : att 1 = .ok ()) :
    (execute_download (some m) att now t).attempts_used = 0 ∧
    (execute_download (some m) att now t).sleeps = [] ∧
    (execute_download (some m) att now t).task.status = DownloadStatus.Downloading ∧
    (execute_download (some m) att now t).result = .error (.FileSystem m) ∧
    (execute_download none att now t).task.status = DownloadStatus.Completed ∧
    (execute_download none att now t).task.retry_count = 1 ∧
    (execute_download none att now t).sleeps = [1] := by
  refine ⟨rfl, rfl, rfl, rfl, ?_, ?_, ?_⟩ <;>
    simp [execute_download, retryLoop, Except.isOk, Except.toBool, hmax, h0, h1]

/-- Witness for C5 (amended) at a concrete filesystem failure. -/
theorem c5_amended_error_policy_witness :
    wTask2.max_retries = 3 ∧
    wAttFs 0 = .error (.FileSystem "Failed to create file tmp/j.zip: permission denied") ∧
    wAttFs 1 = .ok () ∧
    (execute_download (some "Failed to create directory tmp: denied") wAttFs 0
        wTask2).attempts_used = 0 ∧
    (execute_download (some "Failed to create directory tmp: denied") wAttFs 0
        wTask2).task.status = DownloadStatus.Downloading ∧
    (execute_download none wAttFs 0 wTask2).task.status = DownloadStatus.Completed := by
  have h := c5_amended_error_policy "Failed to create directory tmp: denied"
    (.FileSystem "Failed to create file tmp/j.zip: permission denied")
    wAttFs wTask2 0 rfl rfl rfl
  exact ⟨rfl, rfl, rfl, h.1, h.2.2.1, h.2.2.2.2.1⟩

/-- Claim C6 counterexample: `progress_percent` is not always in [0,100]. A
server whose body (200 bytes) exceeds its `content-length` (100) yields — via
`download_with_progress` itself — a task with `downloaded_bytes = 200`,
`total_bytes = 100`, whose `progress_percent` is 200; the code does not
clamp. -/
theorem c6_percent_can_exceed_100 :
    wOverTask.total_bytes = 100 ∧
    wOverTask.downloaded_bytes = 200 ∧
    DownloadTask.progress_percent wOverTask = 200 ∧
    ¬ DownloadTask.progress_percent wOverTask ≤ 100 := by
  have ht : wOverTask.total_bytes = 100 := rfl
  have hd : wOverTask.downloaded_bytes = 200 := rfl
  have hp : DownloadTask.progress_percent wOverTask = 200 := by
    simp only [DownloadTask.progress_percent, ht, hd]
    norm_num
  exact ⟨ht, hd, hp, by rw [hp]; norm_num⟩

/-- Claim C6 amended: `progress_percent = downloaded/total * 100` (0 when
`total_bytes = 0`) and is non-negative always, but lies within [0,100] only
under `downloaded_bytes ≤ total_bytes` (the code does not clamp, and a body
longer than the advertised `content-length` violates the bound);
`speed_bps` is 0 when the task has not started or the elapsed time is ≤ 0,
and otherwise is `downloaded_bytes / elapsed` truncated to an integer. -/
theorem c6_amended_numerics (t : DownloadTask) (now st : ℚ) :
    (t.total_bytes = 0 → DownloadTask.progress_percent t = 0) ∧
    (t.total_bytes ≠ 0 →
      DownloadTask.progress_percent t
        = ((t.downloaded_bytes : ℚ) / (t.total_bytes : ℚ)) * 100) ∧
    (0 ≤ DownloadTask.progress_percent t) ∧
    (t.downloaded_bytes ≤ t.total_bytes → DownloadTask.progress_percent t ≤ 100) ∧
    (t.started_at = none → DownloadTask.speed_bps t now = 0) ∧
    (t.started_at = some st → now - st ≤ 0 → DownloadTask.speed_bps t now = 0) ∧
    (t.started_at = some st → 0 < now - st →
      DownloadTask.speed_bps t now
        = (⌊(t.downloaded_bytes : ℚ) / (now - st)⌋).toNat) := by
  refine ⟨?_, ?_, ?_, ?_, ?_, ?_, ?_⟩
  · intro h; simp [DownloadTask.progress_percent, h]
  · intro h; simp [DownloadTask.progress_percent, h]
  · rw [DownloadTask.progress_percent]
    split
    · exact le_refl 0
    · positivity
  · intro hdt
    rw [DownloadTask.progress_percent]
    split
    · norm_num
    · rename_i hne
      have htpos : (0 : ℚ) < (t.total_bytes : ℚ) := by
        exact_mod_cast Nat.pos_of_ne_zero hne
      have hle : (t.downloaded_bytes : ℚ) / (t.total_bytes : ℚ) ≤ 1 :=
        (div_le_one htpos).mpr (by exact_mod_cast hdt)
      calc (t.downloaded_bytes : ℚ) / (t.total_bytes : ℚ) * 100
          ≤ 1 * 100 := by
            exact mul_le_mul_of_nonneg_right hle (by norm_num)
        _ = 100 := by norm_num
  · intro h; simp [DownloadTask.speed_bps, DownloadTask.elapsed_time, h]
  · intro h hle
    simp [DownloadTask.speed_bps, DownloadTask.elapsed_time, h, not_lt.mpr hle]
  · intro h hpos
    simp [DownloadTask.speed_bps, DownloadTask.elapsed_time, h, hpos]

/-- Witness for C6 (amended) at a concrete in-progress task: 50 of 200 bytes
after 5 seconds gives 25% and 10 bytes/s. -/
theorem c6_amended_numerics_witness :
    wNumTask.total_bytes ≠ 0 ∧
    wNumTask.downloaded_bytes ≤ wNumTask.total_bytes ∧
    wNumTask.started_at = some 0 ∧
    (0 : ℚ) < 5 - 0 ∧
    DownloadTask.progress_percent wNumTask = 25 ∧
    DownloadTask.progress_percent wNumTask ≤ 100 ∧
    DownloadTask.speed_bps wNumTask 5 = 10 := by
  have h := c6_amended_numerics wNumTask 5 0
  have hne : wNumTask.total_bytes ≠ 0 := by decide
  have hdt : wNumTask.downloaded_bytes ≤ wNumTask.total_bytes := by decide
  refine ⟨hne, hdt, rfl, by norm_num, ?_, h.2.2.2.1 hdt, ?_⟩
  · rw [h.2.1 hne]
    norm_num [show wNumTask.downloaded_bytes = 50 from rfl,
      show wNumTask.total_bytes = 200 from rfl]
  · rw [h.2.2.2.2.2.2 rfl (by norm_num)]
    norm_num [show wNumTask.downloaded_bytes = 50 from rfl]
    rfl

/-- Claim C9: `start_download` can never return an error: for every input and
every behaviour of the filesystem/network oracles — including runs in which
the inline executions fail — it returns `Ok` with the fresh task's id
("download-" ++ uuid); the fresh task is constructed `Pending`; errors inside
the admission/execution path are absorbed (`try_start_result_ok`), observable
only through task status. -/
theorem c9_start_download_never_errs (env : ExecEnv)
    (uuid name url destination : String) (created : ℚ) (s : MState) :
    (start_download env uuid name url destination created s).2
      = .ok ("download-" ++ uuid) ∧
    (DownloadTask.new uuid name url destination created).status
      = DownloadStatus.Pending := by
  constructor
  · simp only [start_download]
    have h := try_start_result_ok env
      { s with queue := s.queue ++ [DownloadTask.new uuid name url destination created] }
    rcases hr : try_start_next_download env
      { s with queue := s.queue ++ [DownloadTask.new uuid name url destination created] }
      with ⟨s2, r⟩
    rw [hr] at h
    cases r with
    | ok u => simp [hr, DownloadTask.new]
    | error e => simp at h
  · rfl

end Launcher
